import Mathlib

/-!
# Verified model of the Role Definition / PostgreSQL AD Administrator handlers

Shallow embedding of two Terraform provider resource handlers:

* `azurerm/internal/services/authorization` — the `azurerm_role_definition`
  resource (create / read / update / delete, the eventual-consistency poll
  refresh function, and the expand/flatten helpers);
* `azurerm/internal/services/postgres` — the
  `azurerm_postgresql_active_directory_administrator` resource.

API calls are modelled by passing the outcome of each call in as data: every
handler becomes a pure function from its environment (configuration fields
plus the responses the remote API would return) to an explicit result value.
Go `nil`-pointer fields become `Option`; a Go `nil`-pointer dereference is an
explicit `panic`-like constructor in the result type, distinguished from an
orderly error return.
-/

namespace Authorization

/-- An error value returned by a handler.  Constructors carry the data that
the Go code interpolates into the corresponding `fmt.Errorf` / helper call,
so that "which error, mentioning what" is provable without modelling the
exact message text of external helpers. -/
inductive RDError where
  /-- Wraps `fmt.Errorf("Error generating UUID for Role Assignment: %+v", err)`. -/
  | uuidGenError (underlying : String)
  /-- Wraps `fmt.Errorf("Error checking for presence of existing Role Definition ID for %q (Scope %q)", name, scope)`. -/
  | checkExisting (name scope : String)
  /-- The already-exists condition
  `tf.ImportAsExistsError(resourceType, importID)`, naming `importID`. -/
  | importAsExists (resourceType importID : String)
  /-- Error returned verbatim after `client.CreateOrUpdate` in Create. -/
  | createUpsertError (underlying : String)
  /-- Error returned verbatim after the re-read in Create. -/
  | createReadError (underlying : String)
  /-- Wraps `fmt.Errorf("Cannot read Role Definition ID for %q (Scope %q)", name, scope)`. -/
  | cannotReadId (name scope : String)
  /-- Failure of `parse.RoleDefinitionId` returned verbatim (`return err`). -/
  | parseError (underlying : String)
  /-- Wraps `fmt.Errorf("updating Role Definition %q (Scope %q): %+v", ...)`. -/
  | updateUpsertError (roleId scope underlying : String)
  /-- Error "properties was nil" in the upsert response of Update. -/
  | updatePropsNil (roleId scope : String)
  /-- Error "properties.UpdatedOn was nil" in the upsert response of Update. -/
  | updateUpdatedOnNil (roleId scope : String)
  /-- Wraps `fmt.Errorf("waiting for Role Definition ... to settle down: %+v", err)`. -/
  | waitError (roleId scope : String)
  /-- Wraps `fmt.Errorf("Error loading Role Definition %q: %+v", id, err)`. -/
  | loadError (storedId underlying : String)
  /-- Wraps `fmt.Errorf("deleting Role Definition %q at Scope %q: %+v", ...)`. -/
  | deleteError (roleId scope underlying : String)
  deriving DecidableEq, Repr

/-- The parsed form (`parse.RoleDefinitionID`) of the stored composite
identifier `"<remote-resource-id>|<scope>"`. -/
structure RoleDefinitionID where
  scope : String
  roleID : String
  resourceID : String
  deriving DecidableEq, Repr

/-- The subset of `authorization.RoleDefinitionProperties` the handlers
consult.  Every field is a Go pointer, hence `Option`. -/
structure RoleDefProps where
  roleName : Option String := none
  description : Option String := none
  createdOn : Option String := none
  updatedOn : Option String := none
  deriving DecidableEq, Repr

/-- The observable outcome of one `client.Get` call: the response struct
(ID and properties are pointer fields) together with the accompanying
`error`, and whether the response's HTTP status was 404
(`utils.ResponseWasNotFound(resp.Response)`). -/
structure GetOutcome where
  id : Option String := none
  props : Option RoleDefProps := none
  notFoundStatus : Bool := false
  err : Option String := none
  deriving DecidableEq, Repr

/-- Predicate `utils.ResponseWasNotFound` applied to the response of a Get. -/
def responseWasNotFound (g : GetOutcome) : Bool :=
  g.notFoundStatus

/-- Error messages (`fmt.Errorf`) produced inside the refresh closure,
carried as structured data. -/
inductive RefreshError where
  /-- The `client.Get` call itself returned an error, forwarded verbatim. -/
  | getError (underlying : String)
  /-- Error message "properties was nil". -/
  | propertiesNil
  /-- Error message "properties.CreatedOn was nil". -/
  | createdOnNil
  deriving DecidableEq, Repr

/-- Result of one invocation of the poll's `resource.StateRefreshFunc`:
either the `(resp, state, nil)` triple's state string, the
`(resp, "Failed", err)` error abort, or a Go runtime panic
(nil-pointer dereference). -/
inductive RefreshResult where
  | state (s : String)
  | failed (e : RefreshError)
  | panicked
  deriving DecidableEq, Repr

/-- The refresh closure built by the source function named the same way,
applied to the outcome of its `client.Get` call.

Mirrors the source line by line: a Get error aborts; `nil` properties and
`nil` `CreatedOn` abort with an error; then the Go code dereferences
`resp.RoleDefinitionProperties.UpdatedOn` *without* a nil check
(`respUpdatedOn := *resp.RoleDefinitionProperties.UpdatedOn`), so a `nil`
`UpdatedOn` is a runtime panic, not an error return.  With both timestamps
present: `createdOn == expected` stays Pending, then
`updatedOn != expected` stays Pending, otherwise Updated. -/
def roleDefinitionEventualConsistencyUpdate (expectedUpdateDate : String)
    (fetch : GetOutcome) : RefreshResult :=
  match fetch.err with
  | some e => .failed (.getError e)
  | none =>
    match fetch.props with
    | none => .failed .propertiesNil
    | some props =>
      match props.createdOn with
      | none => .failed .createdOnNil
      | some respCreatedOn =>
        match props.updatedOn with
        | none => .panicked
        | some respUpdatedOn =>
          if respCreatedOn = expectedUpdateDate then
            .state "Pending"
          else if respUpdatedOn ≠ expectedUpdateDate then
            .state "Pending"
          else
            .state "Updated"

/-- The `resource.StateChangeConf` literal built in
`resourceArmRoleDefinitionUpdate` (lines 241–249): 5 consecutive target
occurrences required, 10-second delay and minimum poll interval, pending
state "Pending", target state "Updated", timeout = the caller's update
timeout. -/
structure StateChangeConf where
  continuousTargetOccurence : Nat
  delaySeconds : Nat
  minTimeoutSeconds : Nat
  pending : List String
  target : List String
  deriving DecidableEq, Repr

/-- The concrete configuration used by Update's convergence poll. -/
def roleDefinitionStateConf : StateChangeConf :=
  { continuousTargetOccurence := 5
    delaySeconds := 10
    minTimeoutSeconds := 10
    pending := ["Pending"]
    target := ["Updated"] }

/-- Outcome of running the poll driver over a finite observation trace. -/
inductive PollOutcome where
  /-- The target state was observed `continuousTargetOccurence` consecutive
  times; `observations` is how many observations were consumed. -/
  | success (observations : Nat)
  /-- The refresh function returned an error: the poll aborts with it,
  without retrying. -/
  | failure (e : RefreshError)
  /-- The trace was exhausted before success: the caller's timeout elapses
  and the poll surfaces a timeout error. -/
  | timeout
  /-- An unexpected state, outside pending and target, was observed. -/
  | unexpectedState (s : String)
  /-- The refresh function panicked, so the whole poll panics. -/
  | panicked
  deriving DecidableEq, Repr

/-- Modelled from the spec: the host framework's generic state-change
polling primitive (`resource.StateChangeConf.WaitForState`), which is not
part of this repository.  Per the spec it repeatedly invokes the refresh
function every `delaySeconds`, bounded by the caller's timeout (modelled as
the finite observation trace), "requiring 5 consecutive Updated
observations before declaring success"; a pending state resets the
consecutive-target counter, a refresh error aborts immediately.
`count` is the number of consecutive target observations seen so far;
the returned `success n` gives the number of observations consumed. -/
def waitForStateAux (conf : StateChangeConf) :
    List RefreshResult → Nat → PollOutcome
  | [], _ => .timeout
  | .panicked :: _, _ => .panicked
  | .failed e :: _, _ => .failure e
  | .state s :: rest, count =>
    if s ∈ conf.target then
      if count + 1 ≥ conf.continuousTargetOccurence then
        .success 1
      else
        match waitForStateAux conf rest (count + 1) with
        | .success n => .success (n + 1)
        | other => other
    else if s ∈ conf.pending then
      match waitForStateAux conf rest 0 with
      | .success n => .success (n + 1)
      | other => other
    else
      .unexpectedState s

/-- Modelled from the spec: run the host framework's poll driver from an
empty consecutive-target count over a finite trace of refresh results. -/
def waitForState (conf : StateChangeConf) (trace : List RefreshResult) :
    PollOutcome :=
  waitForStateAux conf trace 0

/-- One entry of the `permissions` configuration list, i.e. the
`map[string]interface{}` the schema delivers: `actions` and `not_actions`
are `TypeList` (ordered, elements may be `nil`), `data_actions` and
`not_data_actions` are `TypeSet`, consumed through `.List()` (the set's
iteration order, elements may be `nil`). -/
structure RawPermission where
  actions : List (Option String)
  notActions : List (Option String)
  dataActions : List (Option String)
  notDataActions : List (Option String)
  deriving DecidableEq, Repr

/-- The `authorization.Permission` payload struct: four `*[]string`
pointer fields. -/
structure Permission where
  actions : Option (List String)
  notActions : Option (List String)
  dataActions : Option (List String)
  notDataActions : Option (List String)
  deriving DecidableEq, Repr

/-- Loop body pattern `for _, a := range xs { if a == nil { continue };
out = append(out, a.(string)) }` starting from an empty slice. -/
def collectStrings (xs : List (Option String)) : List String :=
  xs.foldl (fun acc a =>
    match a with
    | none => acc
    | some s => acc ++ [s]) []

/-- Builds the `[]authorization.Permission` payload from the raw
configuration list, skipping `nil` blocks and `nil` elements, exactly as
the source loop does. -/
def expandRoleDefinitionPermissions (input : List (Option RawPermission)) :
    List Permission :=
  input.foldl (fun output v =>
    match v with
    | none => output
    | some raw =>
      output ++ [{ actions := some (collectStrings raw.actions)
                   dataActions := some (collectStrings raw.dataActions)
                   notActions := some (collectStrings raw.notActions)
                   notDataActions := some (collectStrings raw.notDataActions) }]) []

/-- Builds the assignable-scopes payload: the target scope first (it is
not returned by any API call), then every caller-supplied scope that is
not the target scope, in order. -/
def expandRoleDefinitionAssignableScopes (assignedScope : String)
    (assignableScopes : List String) : List String :=
  assignableScopes.foldl (fun scopes scope =>
    if scope ≠ assignedScope then scopes ++ [scope] else scopes)
    [assignedScope]

/-- Helper `utils.FlattenStringSlice`: a `nil` slice pointer flattens to
the empty list, a non-nil one to its contents. -/
def flattenStringSlice : Option (List String) → List String
  | none => []
  | some l => l

/-- One flattened `permissions` block as written back into state:
`actions` and `not_actions` stay ordered lists, `data_actions` and
`not_data_actions` are rebuilt as sets (`schema.NewSet(schema.HashString, ...)`),
modelled as the `Finset` of their elements. -/
structure FlatPermission where
  actions : List String
  dataActions : Finset String
  notActions : List String
  notDataActions : Finset String
  deriving DecidableEq

/-- Flattens the remote `*[]authorization.Permission` back into
configuration shape: a `nil` pointer flattens to the empty list, otherwise
each permission is mapped in order. -/
def flattenRoleDefinitionPermissions (input : Option (List Permission)) :
    List FlatPermission :=
  match input with
  | none => []
  | some perms =>
    perms.foldl (fun permissions permission =>
      permissions ++
        [{ actions := flattenStringSlice permission.actions
           dataActions := (flattenStringSlice permission.dataActions).toFinset
           notActions := flattenStringSlice permission.notActions
           notDataActions := (flattenStringSlice permission.notDataActions).toFinset }]) []

/-- Flattens the remote `*[]string` of assignable scopes: `nil` becomes
the empty list, otherwise the contents in order. -/
def flattenRoleDefinitionAssignableScopes (input : Option (List String)) :
    List String :=
  match input with
  | none => []
  | some scopes => scopes.foldl (fun acc scope => acc ++ [scope]) []

/-- The request payload built by Create and Update
(`authorization.RoleDefinition` with its properties). -/
structure RoleDefPayload where
  roleName : String
  description : String
  roleType : String
  permissions : List Permission
  assignableScopes : List String
  deriving DecidableEq, Repr

/-- Environment of one Create invocation: the configuration fields read
from `d`, plus the outcome every external call would produce
(UUID generation, the pre-existence Get, the upsert, the re-read). -/
structure CreateEnv where
  roleDefinitionIdField : String
  uuidGen : Except String String
  name : String
  scope : String
  description : String
  permissionsRaw : List (Option RawPermission)
  assignableScopesField : List String
  isNewResource : Bool
  existingGet : GetOutcome
  upsertErr : Option String
  readGet : GetOutcome
  deriving Repr

/-- Result of a Create invocation: the stored composite identifier on
success (Create then chains into Read, not modelled here), or the error
returned.  `upsertCalled` records whether `client.CreateOrUpdate` was
issued before the function returned. -/
structure CreateOutput where
  result : Except RDError String
  upsertCalled : Bool
  deriving Repr

/-- The `d.IsNewResource()` pre-existence block of Create (lines 155–167):
a Get error that is not a 404 fails the check; independently of whether
the Get errored, a response carrying a non-nil, non-empty ID triggers the
already-exists condition on `"<id>|<scope>"`. -/
def createExistingCheck (name scope : String) (existing : GetOutcome) :
    Option RDError :=
  let idCheck : Option RDError :=
    match existing.id with
    | none => none
    | some eid =>
      if eid ≠ "" then
        some (.importAsExists "azurerm_role_definition" (eid ++ "|" ++ scope))
      else none
  match existing.err with
  | some _ =>
    if ¬ responseWasNotFound existing then
      some (.checkExisting name scope)
    else idCheck
  | none => idCheck

/-- Create handler: determine the role-definition id (minting a UUID when
the field is empty), expand the payload, run the pre-existence check when
this is a new logical resource, then upsert, re-read, and require a
non-nil non-empty remote ID before storing `"<id>|<scope>"`. -/
def resourceArmRoleDefinitionCreate (env : CreateEnv) : CreateOutput :=
  let idResult : Except RDError String :=
    if env.roleDefinitionIdField = "" then
      match env.uuidGen with
      | .error e => .error (.uuidGenError e)
      | .ok u => .ok u
    else .ok env.roleDefinitionIdField
  match idResult with
  | .error e => { result := .error e, upsertCalled := false }
  | .ok _roleDefinitionId =>
    let _permissions := expandRoleDefinitionPermissions env.permissionsRaw
    let _assignableScopes :=
      expandRoleDefinitionAssignableScopes env.scope env.assignableScopesField
    let existCheck : Option RDError :=
      if env.isNewResource then
        createExistingCheck env.name env.scope env.existingGet
      else none
    match existCheck with
    | some e => { result := .error e, upsertCalled := false }
    | none =>
      match env.upsertErr with
      | some e => { result := .error (.createUpsertError e), upsertCalled := true }
      | none =>
        match env.readGet.err with
        | some e => { result := .error (.createReadError e), upsertCalled := true }
        | none =>
          match env.readGet.id with
          | none =>
            { result := .error (.cannotReadId env.name env.scope)
              upsertCalled := true }
          | some rid =>
            if rid = "" then
              { result := .error (.cannotReadId env.name env.scope)
                upsertCalled := true }
            else
              { result := .ok (rid ++ "|" ++ env.scope), upsertCalled := true }

/-- Result of a Read invocation: the error returned (or `none` for
success) together with the stored identifier afterwards (`""` after
`d.SetId("")` clears it on a 404). -/
structure ReadOutput where
  err : Option RDError
  finalId : String
  deriving DecidableEq, Repr

/-- Read handler: parse the stored identifier (a parse failure is
returned immediately, before any API call), fetch, clear the identifier
and succeed on a 404, fail on any other Get error, and otherwise flatten
the response into state (the flattenings are pure and cannot fail in this
model). -/
def resourceArmRoleDefinitionRead (storedId : String)
    (parseResult : Except String RoleDefinitionID) (get : GetOutcome) :
    ReadOutput :=
  match parseResult with
  | .error e => { err := some (.parseError e), finalId := storedId }
  | .ok _roleDefinitionId =>
    match get.err with
    | some e =>
      if responseWasNotFound get then
        { err := none, finalId := "" }
      else
        { err := some (.loadError storedId e), finalId := storedId }
    | none => { err := none, finalId := storedId }

/-- Result of a Delete invocation: success, an orderly error, or a Go
runtime panic. -/
inductive DeleteResult where
  | ok
  | err (e : RDError)
  | panicked
  deriving DecidableEq, Repr

/-- Outcome of the `client.Delete` call: the accompanying error and
whether the response status was 404. -/
structure DeleteOutcome where
  notFoundStatus : Bool := false
  err : Option String := none
  deriving DecidableEq, Repr

/-- Delete handler.  The source discards the parse error
(`id, _ := parse.RoleDefinitionId(d.Id())`) and then evaluates `id.Scope`
and `id.RoleID`; since the parser returns a nil pointer alongside its
error, a malformed identifier is a nil-pointer dereference — a runtime
panic, not an error return.  With a well-formed identifier, a Delete
error is tolerated exactly when the response was a 404. -/
def resourceArmRoleDefinitionDelete
    (parseResult : Except String RoleDefinitionID) (del : DeleteOutcome) :
    DeleteResult :=
  match parseResult with
  | .error _ => .panicked
  | .ok id =>
    match del.err with
    | some e =>
      if ¬ del.notFoundStatus then
        .err (.deleteError id.roleID id.scope e)
      else .ok
    | none => .ok

/-- Environment of one Update invocation: the parse result of the stored
identifier, the configuration fields, the outcome of the upsert call
(the workaround client returns the updated definition), and the trace of
Get outcomes the convergence poll would observe, one per poll cycle,
truncated at the caller's update timeout. -/
structure UpdateEnv where
  parseResult : Except String RoleDefinitionID
  name : String
  description : String
  permissionsRaw : List (Option RawPermission)
  assignableScopesField : List String
  scopeField : String
  upsertErr : Option String
  upsertProps : Option RoleDefProps
  pollTrace : List GetOutcome
  deriving Repr

/-- Result of an Update invocation. -/
inductive UpdateResult where
  | ok
  | err (e : RDError)
  | panicked
  deriving DecidableEq, Repr

/-- Update handler: parse the identifier (failure returns immediately,
before any API call), upsert, require non-nil properties and `UpdatedOn`
in the response, then run the convergence poll with
`roleDefinitionStateConf` against the expected update timestamp; a poll
failure or timeout surfaces as the "waiting for ... to settle down"
error, a poll panic propagates.  On success Update chains into Read
(not modelled here). -/
def resourceArmRoleDefinitionUpdate (env : UpdateEnv) : UpdateResult :=
  match env.parseResult with
  | .error e => .err (.parseError e)
  | .ok roleDefinitionId =>
    let _permissions := expandRoleDefinitionPermissions env.permissionsRaw
    let _assignableScopes :=
      expandRoleDefinitionAssignableScopes env.scopeField env.assignableScopesField
    match env.upsertErr with
    | some e =>
      .err (.updateUpsertError roleDefinitionId.roleID roleDefinitionId.scope e)
    | none =>
      match env.upsertProps with
      | none => .err (.updatePropsNil roleDefinitionId.roleID roleDefinitionId.scope)
      | some props =>
        match props.updatedOn with
        | none =>
          .err (.updateUpdatedOnNil roleDefinitionId.roleID roleDefinitionId.scope)
        | some updatedOn =>
          match waitForState roleDefinitionStateConf
              (env.pollTrace.map
                (roleDefinitionEventualConsistencyUpdate updatedOn)) with
          | .success _ => .ok
          | .panicked => .panicked
          | _ => .err (.waitError roleDefinitionId.roleID roleDefinitionId.scope)

end Authorization

namespace Postgres

/-- An error value returned by the PostgreSQL AD Administrator handler,
carrying the data the Go code interpolates into the message. -/
inductive PgError where
  /-- Wraps `fmt.Errorf("Error checking for presence of existing PostgreSQL AD Administrator ...")`. -/
  | checkExisting (resGroup serverName underlying : String)
  /-- The already-exists condition
  `tf.ImportAsExistsError(resourceType, existingID)`. -/
  | importAsExists (resourceType existingID : String)
  /-- Wraps `fmt.Errorf("Error issuing create/update request ...")`. -/
  | upsertError (resGroup serverName underlying : String)
  /-- Wraps `fmt.Errorf("Error waiting on create/update future ...")`. -/
  | futureWaitError (resGroup serverName underlying : String)
  /-- Wraps `fmt.Errorf("Error issuing get request ...")`. -/
  | refetchError (resGroup serverName underlying : String)
  /-- Failure of `azure.ParseAzureResourceID` returned verbatim. -/
  | parseError (underlying : String)
  /-- Wraps `fmt.Errorf("Error reading PostgreSQL AD administrator: %+v", err)`. -/
  | readError (underlying : String)
  /-- Wraps `fmt.Errorf("Error deleting PostgreSQL AD Administrator: %+v", err)`. -/
  | deleteError (underlying : String)
  deriving DecidableEq, Repr

/-- The parsed form of the stored Azure resource path
(`azure.ParseAzureResourceID`): the handlers consult the resource group
and the `servers` path segment. -/
structure AzureResourceID where
  resourceGroup : String
  serverName : String
  deriving DecidableEq, Repr

/-- The observable outcome of one `client.Get` call for the
administrator binding: the response's pointer `ID` field, whether the
status was 404, and the accompanying error.  The login / principal /
tenant fields are not consulted by any claim and are omitted. -/
structure PgGetOutcome where
  id : Option String := none
  notFoundStatus : Bool := false
  err : Option String := none
  deriving DecidableEq, Repr

/-- Environment of one CreateUpdate invocation: the import-checking
feature flag, whether this is a new logical resource, and the outcome of
each external call (pre-existence Get, upsert, awaiting the returned
future, the re-fetch). -/
structure PgCreateEnv where
  shouldImport : Bool
  isNewResource : Bool
  resGroup : String
  serverName : String
  existingGet : PgGetOutcome
  upsertErr : Option String
  futureWaitErr : Option String
  refetch : PgGetOutcome
  deriving DecidableEq, Repr

/-- Result of a CreateUpdate invocation: the identifier stored on
success, an orderly error, or a Go runtime panic. -/
inductive PgCreateResult where
  | ok (storedId : String)
  | err (e : PgError)
  | panicked
  deriving DecidableEq, Repr

/-- The import-check block of CreateUpdate (lines 77–88), mirroring the
Role Definition one: a non-404 Get error fails the check; a response
carrying a non-nil non-empty ID triggers the already-exists condition
naming the remote ID itself. -/
def pgExistingCheck (resGroup serverName : String) (existing : PgGetOutcome) :
    Option PgError :=
  let idCheck : Option PgError :=
    match existing.id with
    | none => none
    | some eid =>
      if eid ≠ "" then
        some (.importAsExists "azurerm_postgresql_active_directory_administrator" eid)
      else none
  match existing.err with
  | some e =>
    if ¬ existing.notFoundStatus then
      some (.checkExisting resGroup serverName e)
    else idCheck
  | none => idCheck

/-- CreateUpdate handler: optional import check, upsert, await the
long-running operation, re-fetch — and then store the identifier by
unconditionally dereferencing the response's pointer `ID` field
(`d.SetId(*resp.ID)`): a successful re-fetch whose ID is `nil` is a
nil-pointer dereference, a runtime panic, not an error return. -/
def resourceArmPostgreSQLAdministratorCreateUpdate (env : PgCreateEnv) :
    PgCreateResult :=
  let existCheck : Option PgError :=
    if env.shouldImport ∧ env.isNewResource then
      pgExistingCheck env.resGroup env.serverName env.existingGet
    else none
  match existCheck with
  | some e => .err e
  | none =>
    match env.upsertErr with
    | some e => .err (.upsertError env.resGroup env.serverName e)
    | none =>
      match env.futureWaitErr with
      | some e => .err (.futureWaitError env.resGroup env.serverName e)
      | none =>
        match env.refetch.err with
        | some e => .err (.refetchError env.resGroup env.serverName e)
        | none =>
          match env.refetch.id with
          | none => .panicked
          | some rid => .ok rid

/-- Result of a Read invocation for the binding: the error returned (or
`none` for success) and the stored identifier afterwards (`""` after
`d.SetId("")` clears it on a 404). -/
structure PgReadOutput where
  err : Option PgError
  finalId : String
  deriving DecidableEq, Repr

/-- Read handler: parse the stored identifier (failure returned
immediately), fetch, clear the identifier and succeed on a 404, fail on
any other Get error, otherwise populate the fields and succeed. -/
def resourceArmPostgreSQLAdministratorRead (storedId : String)
    (parseResult : Except String AzureResourceID) (get : PgGetOutcome) :
    PgReadOutput :=
  match parseResult with
  | .error e => { err := some (.parseError e), finalId := storedId }
  | .ok _id =>
    match get.err with
    | some e =>
      if get.notFoundStatus then
        { err := none, finalId := "" }
      else
        { err := some (.readError e), finalId := storedId }
    | none => { err := none, finalId := storedId }

/-- Result of a Delete invocation for the binding. -/
inductive PgDeleteResult where
  | ok
  | err (e : PgError)
  deriving DecidableEq, Repr

/-- Delete handler: parse the stored identifier (failure returned
immediately), then issue the delete; *every* delete-call error — the
response is discarded, so no 404 check is possible — is wrapped and
returned. -/
def resourceArmPostgreSQLAdministratorDelete
    (parseResult : Except String AzureResourceID) (delErr : Option String) :
    PgDeleteResult :=
  match parseResult with
  | .error e => .err (.parseError e)
  | .ok _id =>
    match delErr with
    | some e => .err (.deleteError e)
    | none => .ok

end Postgres

namespace Authorization

/-- The assignable-scope fold appends exactly the caller scopes different
from the assigned scope, in order, after any initial prefix. -/
theorem assignableScopes_foldl_eq (scope : String) :
    ∀ (ss : List String) (init : List String),
      ss.foldl (fun scopes s => if s ≠ scope then scopes ++ [s] else scopes) init =
        init ++ ss.filter (fun s => s ≠ scope)
  | [], init => by simp
  | s :: ss, init => by
    by_cases h : s = scope
    · simpa [h] using assignableScopes_foldl_eq scope ss init
    · simpa [h] using assignableScopes_foldl_eq scope ss (init ++ [s])

/-- Closed form of the assignable-scope expansion. -/
theorem expandRoleDefinitionAssignableScopes_eq (scope : String) (ss : List String) :
    expandRoleDefinitionAssignableScopes scope ss =
      scope :: ss.filter (fun s => s ≠ scope) := by
  simpa [expandRoleDefinitionAssignableScopes] using
    assignableScopes_foldl_eq scope ss [scope]

end Authorization

open Authorization Postgres in
/-- C1: for every poll observation of the Role Definition convergence poll
whose fetched object has non-nil properties and timestamps: if the remote
createdOn equals the expected updatedOn marker the state machine stays
Pending; else if the remote updatedOn differs from the expected marker it
stays Pending; else it transitions to Updated. -/
theorem C1_refresh_transition (expected c u : String) (fetch : GetOutcome)
    (props : RoleDefProps)
    (herr : fetch.err = none) (hprops : fetch.props = some props)
    (hc : props.createdOn = some c) (hu : props.updatedOn = some u) :
    (c = expected →
      roleDefinitionEventualConsistencyUpdate expected fetch = .state "Pending") ∧
    (c ≠ expected → u ≠ expected →
      roleDefinitionEventualConsistencyUpdate expected fetch = .state "Pending") ∧
    (c ≠ expected → u = expected →
      roleDefinitionEventualConsistencyUpdate expected fetch = .state "Updated") := by
  refine ⟨fun h1 => ?_, fun h1 h2 => ?_, fun h1 h2 => ?_⟩
  · simp [roleDefinitionEventualConsistencyUpdate, herr, hprops, hc, hu, h1]
  · simp [roleDefinitionEventualConsistencyUpdate, herr, hprops, hc, hu, h1, h2]
  · simp [roleDefinitionEventualConsistencyUpdate, herr, hprops, hc, hu, h1, h2]

open Authorization in
/-- Witness for C1 at a concrete observation whose timestamps have settled. -/
theorem C1_refresh_transition_witness :
    roleDefinitionEventualConsistencyUpdate "2020-02-02T00:00:00Z"
      { id := none
        props := some { createdOn := some "2020-01-01T00:00:00Z"
                        updatedOn := some "2020-02-02T00:00:00Z" }
        notFoundStatus := false
        err := none } = .state "Updated" :=
  (C1_refresh_transition "2020-02-02T00:00:00Z" "2020-01-01T00:00:00Z"
      "2020-02-02T00:00:00Z" _ _ rfl rfl rfl rfl).2.2 (by decide) rfl

open Authorization in
/-- C2 (refuting the totality part): the claim says the observation
function returns an error on every nil-field input, but on a fetched
object whose properties and createdOn are present while updatedOn is nil,
the source dereferences the nil UpdatedOn pointer: the observation
panics instead of returning an error. -/
theorem C2_updatedOn_nil_panics :
    roleDefinitionEventualConsistencyUpdate "2020-02-02T00:00:00Z"
      { id := none
        props := some { createdOn := some "2020-01-01T00:00:00Z"
                        updatedOn := none }
        notFoundStatus := false
        err := none } = .panicked ∧
    (∀ e : RefreshError, RefreshResult.panicked ≠ .failed e) ∧
    (roleDefinitionEventualConsistencyUpdate "2020-02-02T00:00:00Z"
      { id := none, props := none, notFoundStatus := false, err := none } =
        .failed .propertiesNil) ∧
    (roleDefinitionEventualConsistencyUpdate "2020-02-02T00:00:00Z"
      { id := none
        props := some { createdOn := none, updatedOn := some "x" }
        notFoundStatus := false
        err := none } = .failed .createdOnNil) := by
  refine ⟨rfl, ?_, rfl, rfl⟩
  intro e h
  cases h

open Authorization in
/-- C4: for every configuration, the expanded assignable-scope list has
the resource's own scope as element 0, contains exactly one occurrence of
that scope even when the caller listed it (possibly repeatedly), and
keeps the caller-supplied scopes other than the own scope in order after
it. -/
theorem C4_assignable_scopes_invariant (scope : String) (callerScopes : List String) :
    (expandRoleDefinitionAssignableScopes scope callerScopes).head? = some scope ∧
    (expandRoleDefinitionAssignableScopes scope callerScopes).count scope = 1 ∧
    (expandRoleDefinitionAssignableScopes scope callerScopes).tail =
      callerScopes.filter (fun s => s ≠ scope) := by
  rw [expandRoleDefinitionAssignableScopes_eq]
  refine ⟨rfl, ?_, rfl⟩
  have hz : (callerScopes.filter (fun s => s ≠ scope)).count scope = 0 := by
    refine List.count_eq_zero.2 fun hmem => ?_
    have h := List.of_mem_filter hmem
    simp at h
  rw [List.count_cons, hz]
  simp

open Authorization in
/-- C6: for every Role Definition Create of a brand-new logical resource
(not an import) whose pre-existence fetch succeeds and returns an object
with a non-empty remote identifier, Create fails with the already-exists
condition naming the composite identifier "<id>|<scope>", and no upsert
call is issued. -/
theorem C6_create_already_exists (env : CreateEnv) (eid : String)
    (hdet : env.roleDefinitionIdField ≠ "" ∨ ∃ u, env.uuidGen = Except.ok u)
    (hnew : env.isNewResource = true)
    (herr : env.existingGet.err = none)
    (hid : env.existingGet.id = some eid)
    (hne : eid ≠ "") :
    (resourceArmRoleDefinitionCreate env).result =
      .error (.importAsExists "azurerm_role_definition" (eid ++ "|" ++ env.scope)) ∧
    (resourceArmRoleDefinitionCreate env).upsertCalled = false := by
  have hcheck : createExistingCheck env.name env.scope env.existingGet =
      some (.importAsExists "azurerm_role_definition" (eid ++ "|" ++ env.scope)) := by
    simp [createExistingCheck, herr, hid, hne]
  rcases hdet with hfield | ⟨u, hu⟩
  · simp [resourceArmRoleDefinitionCreate, hfield, hnew, hcheck]
  · by_cases hf : env.roleDefinitionIdField = ""
    · simp [resourceArmRoleDefinitionCreate, hf, hu, hnew, hcheck]
    · simp [resourceArmRoleDefinitionCreate, hf, hnew, hcheck]

open Authorization in
/-- Witness for C6: creating a new resource whose pre-existence fetch
finds a remote object yields the already-exists error without an upsert. -/
theorem C6_create_already_exists_witness :
    (resourceArmRoleDefinitionCreate
      { roleDefinitionIdField := "00000000-0000-0000-0000-000000000001"
        uuidGen := .ok "unused"
        name := "reader"
        scope := "/subscriptions/X"
        description := ""
        permissionsRaw := []
        assignableScopesField := []
        isNewResource := true
        existingGet := { id := some "/subscriptions/X/providers/Microsoft.Authorization/roleDefinitions/00000000-0000-0000-0000-000000000001" }
        upsertErr := none
        readGet := {} }).result =
      .error (.importAsExists "azurerm_role_definition"
        ("/subscriptions/X/providers/Microsoft.Authorization/roleDefinitions/00000000-0000-0000-0000-000000000001" ++ "|" ++ "/subscriptions/X")) ∧
    (resourceArmRoleDefinitionCreate
      { roleDefinitionIdField := "00000000-0000-0000-0000-000000000001"
        uuidGen := .ok "unused"
        name := "reader"
        scope := "/subscriptions/X"
        description := ""
        permissionsRaw := []
        assignableScopesField := []
        isNewResource := true
        existingGet := { id := some "/subscriptions/X/providers/Microsoft.Authorization/roleDefinitions/00000000-0000-0000-0000-000000000001" }
        upsertErr := none
        readGet := {} }).upsertCalled = false :=
  C6_create_already_exists _ _ (Or.inl (by decide)) rfl rfl rfl (by decide)

/-- C7: for both the Role Definition and the Administrator Binding
handler, Read of a resource that was deleted out-of-band (the fetch
errors with a 404 status) clears the stored local identifier and returns
success rather than an error. -/
theorem C7_read_out_of_band_deletion
    (storedId pgStoredId e pe : String)
    (rid : Authorization.RoleDefinitionID) (aid : Postgres.AzureResourceID)
    (g : Authorization.GetOutcome) (pg : Postgres.PgGetOutcome)
    (hg : g.err = some e) (hnf : g.notFoundStatus = true)
    (hpg : pg.err = some pe) (hpnf : pg.notFoundStatus = true) :
    Authorization.resourceArmRoleDefinitionRead storedId (.ok rid) g =
      { err := none, finalId := "" } ∧
    Postgres.resourceArmPostgreSQLAdministratorRead pgStoredId (.ok aid) pg =
      { err := none, finalId := "" } := by
  constructor
  · simp [Authorization.resourceArmRoleDefinitionRead,
      Authorization.responseWasNotFound, hg, hnf]
  · simp [Postgres.resourceArmPostgreSQLAdministratorRead, hpg, hpnf]

/-- Witness for C7 at concrete 404 read outcomes. -/
theorem C7_read_out_of_band_deletion_witness :
    Authorization.resourceArmRoleDefinitionRead "rid|/subscriptions/X"
      (.ok { scope := "/subscriptions/X", roleID := "rid", resourceID := "r" })
      { id := none, props := none, notFoundStatus := true, err := some "404" } =
      { err := none, finalId := "" } ∧
    Postgres.resourceArmPostgreSQLAdministratorRead
      "/subscriptions/X/resourceGroups/rg/providers/Microsoft.DBforPostgreSQL/servers/s/administrators/activeDirectory"
      (.ok { resourceGroup := "rg", serverName := "s" })
      { id := none, notFoundStatus := true, err := some "404" } =
      { err := none, finalId := "" } :=
  C7_read_out_of_band_deletion _ _ "404" "404" _ _ _ _ rfl rfl rfl rfl

/-- C8: Role Definition Delete treats a not-found response from the
delete call as success, while Administrator Binding Delete wraps and
returns every error from its delete call, including not-found (its
response is discarded, so it cannot even test for 404). -/
theorem C8_delete_notfound_asymmetry
    (rid : Authorization.RoleDefinitionID) (aid : Postgres.AzureResourceID)
    (e pe : String) (del : Authorization.DeleteOutcome)
    (hderr : del.err = some e) (hnf : del.notFoundStatus = true) :
    Authorization.resourceArmRoleDefinitionDelete (.ok rid) del = .ok ∧
    Postgres.resourceArmPostgreSQLAdministratorDelete (.ok aid) (some pe) =
      .err (.deleteError pe) := by
  constructor
  · simp [Authorization.resourceArmRoleDefinitionDelete, hderr, hnf]
  · rfl

/-- Witness for C8 at a concrete not-found delete outcome on both sides. -/
theorem C8_delete_notfound_asymmetry_witness :
    Authorization.resourceArmRoleDefinitionDelete
      (.ok { scope := "/subscriptions/X", roleID := "rid", resourceID := "r" })
      { notFoundStatus := true, err := some "404 not found" } = .ok ∧
    Postgres.resourceArmPostgreSQLAdministratorDelete
      (.ok { resourceGroup := "rg", serverName := "s" })
      (some "404 not found") = .err (.deleteError "404 not found") :=
  C8_delete_notfound_asymmetry _ _ "404 not found" "404 not found" _ rfl rfl

open Authorization in
/-- C9 (refuting the Delete part): a malformed stored identifier makes
Read and Update fail immediately with the parse error, before any API
call; but Delete discards the parse error (`id, _ :=`) and dereferences
the nil identifier the parser returned alongside it — a runtime panic,
not the parse error the claim requires. -/
theorem C9_parse_failure_behaviour :
    resourceArmRoleDefinitionRead "invalid" (.error "parse failed") {} =
      { err := some (.parseError "parse failed"), finalId := "invalid" } ∧
    resourceArmRoleDefinitionUpdate
      { parseResult := .error "parse failed"
        name := "reader"
        description := ""
        permissionsRaw := []
        assignableScopesField := []
        scopeField := "/subscriptions/X"
        upsertErr := none
        upsertProps := none
        pollTrace := [] } = .err (.parseError "parse failed") ∧
    resourceArmRoleDefinitionDelete (.error "parse failed") {} = .panicked ∧
    (∀ e : RDError, DeleteResult.panicked ≠ .err e) := by
  refine ⟨rfl, rfl, rfl, ?_⟩
  intro e h
  cases h

open Authorization Postgres in
/-- C10: Administrator Binding CreateUpdate, after awaiting the upsert
operation, stores the identifier by unconditionally dereferencing the
re-fetch response's ID field: a successful re-fetch with an absent ID
panics rather than returning an error — unlike Role Definition Create,
which checks the remote identifier and fails with the cannot-read error. -/
theorem C10_binding_nil_id_crash (env : PgCreateEnv) (cenv : CreateEnv)
    (hchk : env.shouldImport ∧ env.isNewResource →
      pgExistingCheck env.resGroup env.serverName env.existingGet = none)
    (hup : env.upsertErr = none) (hwait : env.futureWaitErr = none)
    (hrerr : env.refetch.err = none) (hrid : env.refetch.id = none)
    (hcdet : cenv.roleDefinitionIdField ≠ "")
    (hcnew : cenv.isNewResource = false)
    (hcup : cenv.upsertErr = none)
    (hcrerr : cenv.readGet.err = none) (hcrid : cenv.readGet.id = none) :
    resourceArmPostgreSQLAdministratorCreateUpdate env = .panicked ∧
    (∀ e : PgError, PgCreateResult.panicked ≠ .err e) ∧
    (resourceArmRoleDefinitionCreate cenv).result =
      .error (.cannotReadId cenv.name cenv.scope) := by
  refine ⟨?_, ?_, ?_⟩
  · by_cases h : env.shouldImport ∧ env.isNewResource
    · simp [resourceArmPostgreSQLAdministratorCreateUpdate, h, hchk h, hup,
        hwait, hrerr, hrid]
    · simp [resourceArmPostgreSQLAdministratorCreateUpdate, h, hup, hwait,
        hrerr, hrid]
  · intro e he
    cases he
  · simp [resourceArmRoleDefinitionCreate, hcdet, hcnew, hcup, hcrerr, hcrid]

open Authorization Postgres in
/-- Witness for C10: concrete update-path environments whose re-fetch
succeeds with an absent ID. -/
theorem C10_binding_nil_id_crash_witness :
    resourceArmPostgreSQLAdministratorCreateUpdate
      { shouldImport := false
        isNewResource := false
        resGroup := "rg"
        serverName := "s"
        existingGet := {}
        upsertErr := none
        futureWaitErr := none
        refetch := { id := none, notFoundStatus := false, err := none } } =
      .panicked ∧
    (∀ e : PgError, PgCreateResult.panicked ≠ .err e) ∧
    (resourceArmRoleDefinitionCreate
      { roleDefinitionIdField := "00000000-0000-0000-0000-000000000001"
        uuidGen := .ok "unused"
        name := "reader"
        scope := "/subscriptions/X"
        description := ""
        permissionsRaw := []
        assignableScopesField := []
        isNewResource := false
        existingGet := {}
        upsertErr := none
        readGet := { id := none, props := none, notFoundStatus := false, err := none } }).result =
      .error (.cannotReadId "reader" "/subscriptions/X") :=
  C10_binding_nil_id_crash _ _ (fun h => absurd h.1 (by decide)) rfl rfl rfl rfl
    (by decide) rfl rfl rfl rfl

namespace Authorization

/-- Collecting a list of present (non-nil) elements appends exactly those
elements after the accumulator. -/
theorem collectStrings_go (l : List String) :
    ∀ acc : List String,
      (l.map some).foldl (fun acc a =>
        match a with
        | none => acc
        | some s => acc ++ [s]) acc = acc ++ l := by
  induction l with
  | nil => intro acc; simp
  | cons x xs ih =>
    intro acc
    simp only [List.map_cons, List.foldl_cons, ih (acc ++ [x]), List.append_assoc,
      List.singleton_append]

/-- Collecting a nil-free element list is the identity. -/
theorem collectStrings_map_some (l : List String) :
    collectStrings (l.map some) = l := by
  simpa [collectStrings] using collectStrings_go l []

end Authorization

open Authorization in
/-- C5: for every Permission block with populated actions, not_actions,
data_actions and not_data_actions, flattening the result of expanding it
yields the original four collections — actions and not_actions in their
original order, data_actions and not_data_actions equal as sets. -/
theorem C5_permissions_roundtrip (as ns ds nds : List String)
    (hasPop : as ≠ []) (hnsPop : ns ≠ []) (hdsPop : ds ≠ []) (hndsPop : nds ≠ []) :
    flattenRoleDefinitionPermissions
      (some (expandRoleDefinitionPermissions
        [some { actions := as.map some
                notActions := ns.map some
                dataActions := ds.map some
                notDataActions := nds.map some }])) =
      [{ actions := as
         dataActions := ds.toFinset
         notActions := ns
         notDataActions := nds.toFinset }] := by
  simp [expandRoleDefinitionPermissions, flattenRoleDefinitionPermissions,
    flattenStringSlice, collectStrings_map_some]

open Authorization in
/-- Witness for C5 at a concrete populated Permission block. -/
theorem C5_permissions_roundtrip_witness :
    flattenRoleDefinitionPermissions
      (some (expandRoleDefinitionPermissions
        [some { actions := ["*/read", "Microsoft.Storage/write"].map some
                notActions := ["*/delete"].map some
                dataActions := ["dataRead", "dataWrite"].map some
                notDataActions := ["dataDelete"].map some }])) =
      [{ actions := ["*/read", "Microsoft.Storage/write"]
         dataActions := ["dataRead", "dataWrite"].toFinset
         notActions := ["*/delete"]
         notDataActions := ["dataDelete"].toFinset }] :=
  C5_permissions_roundtrip _ _ _ _ (by decide) (by decide) (by decide) (by decide)

namespace Authorization

/-- Shifts a success outcome by `n` additional consumed observations. -/
def PollOutcome.addObs (n : Nat) : PollOutcome → PollOutcome
  | .success m => .success (m + n)
  | other => other

/-- A single observation of a pending (non-target) state resets the
consecutive-target counter and adds one consumed observation. -/
theorem waitForStateAux_pending_cons (conf : StateChangeConf) (s : String)
    (rest : List RefreshResult) (hnt : s ∉ conf.target) (hp : s ∈ conf.pending) :
    waitForStateAux conf (.state s :: rest) 0 =
      (waitForStateAux conf rest 0).addObs 1 := by
  rw [waitForStateAux, if_neg hnt, if_pos hp]
  cases waitForStateAux conf rest 0 <;> rfl

/-- A run of `n` Pending observations adds `n` consumed observations. -/
theorem waitForStateAux_pending_replicate (n : Nat) (rest : List RefreshResult) :
    waitForStateAux roleDefinitionStateConf
      (List.replicate n (.state "Pending") ++ rest) 0 =
      (waitForStateAux roleDefinitionStateConf rest 0).addObs n := by
  induction n with
  | zero =>
    rw [List.replicate_zero, List.nil_append]
    cases waitForStateAux roleDefinitionStateConf rest 0 <;> rfl
  | succ k ih =>
    rw [List.replicate_succ, List.cons_append,
      waitForStateAux_pending_cons roleDefinitionStateConf "Pending" _
        (by simp [roleDefinitionStateConf]) (by simp [roleDefinitionStateConf]),
      ih]
    cases waitForStateAux roleDefinitionStateConf rest 0 <;>
      simp [PollOutcome.addObs, Nat.add_assoc]

/-- Five consecutive Updated observations from a reset counter succeed,
consuming exactly five observations. -/
theorem waitForStateAux_updated_five :
    waitForStateAux roleDefinitionStateConf
      (List.replicate 5 (.state "Updated")) 0 = .success 5 := by
  decide

/-- Fewer than five consecutive Updated observations from a reset counter
do not succeed: the trace runs out (the caller's timeout elapses). -/
theorem waitForStateAux_updated_short (k : Nat) (hk : k < 5) :
    waitForStateAux roleDefinitionStateConf
      (List.replicate k (.state "Updated")) 0 = .timeout := by
  interval_cases k <;> decide

end Authorization

open Authorization in
/-- C3: for every sequence of poll observations where createdOn equals
expectedUpdatedOn for N cycles (with updatedOn still different) and
updatedOn reaches expectedUpdatedOn from cycle N+1 on, the Role
Definition update poll declares overall success only after 5 consecutive
Updated observations (the configured ContinuousTargetOccurence),
consuming N+5 observations — and never on the first Updated observation:
with fewer than 5 post-divergence Updated observations in the bounded
trace the poll does not succeed and Update surfaces the wait error. -/
theorem C3_update_needs_five_consecutive (expected u1 c2 : String) (N : Nat)
    (env : UpdateEnv) (rid : RoleDefinitionID) (props : RoleDefProps)
    (g1 g2 : GetOutcome) (p1 p2 : RoleDefProps)
    (hparse : env.parseResult = .ok rid)
    (hup : env.upsertErr = none)
    (hprops : env.upsertProps = some props)
    (hupdOn : props.updatedOn = some expected)
    (hg1e : g1.err = none) (hg1p : g1.props = some p1)
    (hg1c : p1.createdOn = some expected) (hg1u : p1.updatedOn = some u1)
    (hu1 : u1 ≠ expected)
    (hg2e : g2.err = none) (hg2p : g2.props = some p2)
    (hg2c : p2.createdOn = some c2) (hc2 : c2 ≠ expected)
    (hg2u : p2.updatedOn = some expected) :
    resourceArmRoleDefinitionUpdate
      { env with pollTrace := List.replicate N g1 ++ List.replicate 5 g2 } = .ok ∧
    waitForState roleDefinitionStateConf
      ((List.replicate N g1 ++ List.replicate 5 g2).map
        (roleDefinitionEventualConsistencyUpdate expected)) = .success (N + 5) ∧
    (∀ k, k < 5 →
      resourceArmRoleDefinitionUpdate
        { env with pollTrace := List.replicate N g1 ++ List.replicate k g2 } =
        .err (.waitError rid.roleID rid.scope)) ∧
    roleDefinitionStateConf.continuousTargetOccurence = 5 := by
  have hrefresh1 : roleDefinitionEventualConsistencyUpdate expected g1 =
      .state "Pending" := by
    simp [roleDefinitionEventualConsistencyUpdate, hg1e, hg1p, hg1c, hg1u]
  have hrefresh2 : roleDefinitionEventualConsistencyUpdate expected g2 =
      .state "Updated" := by
    simp [roleDefinitionEventualConsistencyUpdate, hg2e, hg2p, hg2c, hg2u, hc2]
  have hmap : ∀ k : Nat,
      (List.replicate N g1 ++ List.replicate k g2).map
        (roleDefinitionEventualConsistencyUpdate expected) =
      List.replicate N (RefreshResult.state "Pending") ++
        List.replicate k (RefreshResult.state "Updated") := by
    intro k
    rw [List.map_append, List.map_replicate, List.map_replicate, hrefresh1, hrefresh2]
  have hwait5 : waitForState roleDefinitionStateConf
      ((List.replicate N g1 ++ List.replicate 5 g2).map
        (roleDefinitionEventualConsistencyUpdate expected)) = .success (N + 5) := by
    rw [hmap 5]
    unfold waitForState
    rw [waitForStateAux_pending_replicate, waitForStateAux_updated_five]
    simp [PollOutcome.addObs, Nat.add_comm]
  have hwaitk : ∀ k, k < 5 → waitForState roleDefinitionStateConf
      ((List.replicate N g1 ++ List.replicate k g2).map
        (roleDefinitionEventualConsistencyUpdate expected)) = .timeout := by
    intro k hk
    rw [hmap k]
    unfold waitForState
    rw [waitForStateAux_pending_replicate, waitForStateAux_updated_short k hk]
    rfl
  refine ⟨?_, hwait5, fun k hk => ?_, rfl⟩
  · simp only [resourceArmRoleDefinitionUpdate, hparse, hup, hprops, hupdOn]
    rw [hwait5]
  · simp only [resourceArmRoleDefinitionUpdate, hparse, hup, hprops, hupdOn]
    rw [hwaitk k hk]

open Authorization in
/-- Witness for C3: with 2 shadow-copy cycles and then reconciled reads,
the update succeeds over a trace holding 5 Updated observations,
consuming 2+5 of them, and fails (does not succeed on the first Updated
observation) when the bounded trace holds only 1. -/
theorem C3_update_needs_five_consecutive_witness :
    resourceArmRoleDefinitionUpdate
      { parseResult := .ok { scope := "/subscriptions/X", roleID := "rid", resourceID := "r" }
        name := "reader"
        description := ""
        permissionsRaw := []
        assignableScopesField := []
        scopeField := "/subscriptions/X"
        upsertErr := none
        upsertProps := some { updatedOn := some "T2" }
        pollTrace :=
          List.replicate 2
            { id := none
              props := some { createdOn := some "T2", updatedOn := some "T1" }
              notFoundStatus := false
              err := none } ++
          List.replicate 5
            { id := none
              props := some { createdOn := some "T3", updatedOn := some "T2" }
              notFoundStatus := false
              err := none } } = .ok ∧
    waitForState roleDefinitionStateConf
      ((List.replicate 2
          ({ id := none
             props := some { createdOn := some "T2", updatedOn := some "T1" }
             notFoundStatus := false
             err := none } : GetOutcome) ++
        List.replicate 5
          ({ id := none
             props := some { createdOn := some "T3", updatedOn := some "T2" }
             notFoundStatus := false
             err := none } : GetOutcome)).map
        (roleDefinitionEventualConsistencyUpdate "T2")) = .success (2 + 5) ∧
    resourceArmRoleDefinitionUpdate
      { parseResult := .ok { scope := "/subscriptions/X", roleID := "rid", resourceID := "r" }
        name := "reader"
        description := ""
        permissionsRaw := []
        assignableScopesField := []
        scopeField := "/subscriptions/X"
        upsertErr := none
        upsertProps := some { updatedOn := some "T2" }
        pollTrace :=
          List.replicate 2
            { id := none
              props := some { createdOn := some "T2", updatedOn := some "T1" }
              notFoundStatus := false
              err := none } ++
          List.replicate 1
            { id := none
              props := some { createdOn := some "T3", updatedOn := some "T2" }
              notFoundStatus := false
              err := none } } = .err (.waitError "rid" "/subscriptions/X") :=
  have h := C3_update_needs_five_consecutive "T2" "T1" "T3" 2
    { parseResult := .ok { scope := "/subscriptions/X", roleID := "rid", resourceID := "r" }
      name := "reader"
      description := ""
      permissionsRaw := []
      assignableScopesField := []
      scopeField := "/subscriptions/X"
      upsertErr := none
      upsertProps := some { updatedOn := some "T2" }
      pollTrace := [] }
    { scope := "/subscriptions/X", roleID := "rid", resourceID := "r" }
    { updatedOn := some "T2" }
    { id := none
      props := some { createdOn := some "T2", updatedOn := some "T1" }
      notFoundStatus := false
      err := none }
    { id := none
      props := some { createdOn := some "T3", updatedOn := some "T2" }
      notFoundStatus := false
      err := none }
    { createdOn := some "T2", updatedOn := some "T1" }
    { createdOn := some "T3", updatedOn := some "T2" }
    rfl rfl rfl rfl rfl rfl rfl rfl (by decide) rfl rfl rfl (by decide) rfl
  ⟨h.1, h.2.1, h.2.2.1 1 (by decide)⟩
